import Mathlib

/-!
Shallow embedding of `src/Idempotency_Engine/main.py`.

The Python module defines a `PaymentProcessor` class holding an in-memory
dict `processed_keys : dict[str, str]` and a single method
`process_payment(idempotency_key, amount)`:

* if the key is already in `processed_keys`, it returns the fixed string
  `"Payment already processed."`;
* otherwise it builds
  `result = f"Success: processed payment of {amount} with key {idempotency_key}"`,
  stores it under the key, then with probability 0.2 (one draw of
  `random.random()`, compared against the literal `0.2`) raises
  `ConnectionError("Payment succeeded but Nigerian bank network failed while responding.")`,
  else returns `result`.

The embedding models the dict as an association list in insertion order,
the `Decimal` amount as a rational number rendered by `toString`, the single
`random.random()` sample as an explicit input `r`, and the raised exception
as an explicit result constructor.
-/

/-- Lookup in an association list modelling a Python dict keyed by strings:
the value bound to `k`, or `none` when `k` is absent. -/
def dictLookup : List (String × String) → String → Option String
  | [], _ => none
  | (k', v) :: rest, k => if k' = k then some v else dictLookup rest k

/-- Python dict assignment `d[k] = v`: replaces the binding in place when the
key is present, otherwise appends the new binding, preserving insertion
order. -/
def dictSet : List (String × String) → String → String → List (String × String)
  | [], k, v => [(k, v)]
  | (k', v') :: rest, k, v =>
      if k' = k then (k, v) :: rest else (k', v') :: dictSet rest k v

/-- The state of a `PaymentProcessor`: its `processed_keys` store, initialised
empty by `__init__`. -/
structure PaymentProcessor where
  processed_keys : List (String × String)
deriving DecidableEq

/-- The observable result of one `process_payment` call: the returned string,
or the raised `ConnectionError` carrying its message. -/
inductive ProcessResult where
  | ok (msg : String)
  | connectionError (msg : String)
deriving DecidableEq

/-- The literal returned on the duplicate path of `process_payment`. -/
def duplicateMessage : String := "Payment already processed."

/-- The f-string
`f"Success: processed payment of {amount} with key {idempotency_key}"`. -/
def successMessage (amount : ℚ) (idempotency_key : String) : String :=
  "Success: processed payment of " ++ toString amount ++ " with key "
    ++ idempotency_key

/-- The message of the `ConnectionError` raised after a successful commit. -/
def connectionErrorMessage : String :=
  "Payment succeeded but Nigerian bank network failed while responding."

/-- The literal `0.2` that the `random.random()` sample is compared against,
written as the rational with numerator 1 and denominator 5 so that concrete
calls evaluate by kernel reduction; `failureThreshold_eq_literal` below checks
it equals `0.2`. -/
def failureThreshold : ℚ := ⟨1, 5, by decide, Nat.coprime_one_left 5⟩

/-- A concrete non-firing `random.random()` sample 0.5, used to instantiate
the theorems below at inputs where the injected failure does not occur. -/
def sampleHalf : ℚ := ⟨1, 2, by decide, Nat.coprime_one_left 2⟩

/-- `PaymentProcessor.process_payment`, with the single `random.random()`
sample `r` passed in as an explicit input. Returns the observable result of
the call together with the updated processor state. Console `print` calls are
omitted: they neither touch state nor the returned value. -/
def process_payment (self : PaymentProcessor) (idempotency_key : String)
    (amount : ℚ) (r : ℚ) : ProcessResult × PaymentProcessor :=
  if (dictLookup self.processed_keys idempotency_key).isSome then
    (ProcessResult.ok duplicateMessage, self)
  else
    let result := successMessage amount idempotency_key
    let self' : PaymentProcessor :=
      ⟨dictSet self.processed_keys idempotency_key result⟩
    if r < failureThreshold then
      (ProcessResult.connectionError connectionErrorMessage, self')
    else
      (ProcessResult.ok result, self')

theorem failureThreshold_eq_literal : failureThreshold = 0.2 := by
  rw [failureThreshold]
  refine Rat.ext ?_ ?_ <;> norm_num

theorem sampleHalf_eq_literal : sampleHalf = 0.5 := by
  rw [sampleHalf]
  refine Rat.ext ?_ ?_ <;> norm_num

theorem dictLookup_dictSet_self (d : List (String × String)) (k v : String) :
    dictLookup (dictSet d k v) k = some v := by
  induction d with
  | nil => simp [dictSet, dictLookup]
  | cons hd tl ih =>
    obtain ⟨k', v'⟩ := hd
    by_cases h : k' = k
    · simp [dictSet, dictLookup, h]
    · simp [dictSet, dictLookup, h, ih]

theorem dictLookup_dictSet_ne (d : List (String × String)) (k v k' : String)
    (h : k' ≠ k) : dictLookup (dictSet d k v) k' = dictLookup d k' := by
  have hne : k ≠ k' := fun h2 => h h2.symm
  induction d with
  | nil => simp [dictSet, dictLookup, hne]
  | cons hd tl ih =>
    obtain ⟨k'', v''⟩ := hd
    by_cases h2 : k'' = k
    · subst h2
      simp [dictSet, dictLookup, hne]
    · simp [dictSet, dictLookup, h2, ih]

theorem process_payment_of_present (p : PaymentProcessor) (k : String)
    (a r : ℚ) (h : (dictLookup p.processed_keys k).isSome) :
    process_payment p k a r = (ProcessResult.ok duplicateMessage, p) := by
  simp [process_payment, h]

theorem process_payment_of_fresh (p : PaymentProcessor) (k : String)
    (a r : ℚ) (h : dictLookup p.processed_keys k = none) :
    process_payment p k a r =
      (if r < failureThreshold then
         ProcessResult.connectionError connectionErrorMessage
       else ProcessResult.ok (successMessage a k),
       ⟨dictSet p.processed_keys k (successMessage a k)⟩) := by
  simp [process_payment, h]
  split <;> rfl

/-- Claim C1 (code_bug evidence): after the first call commits key `k1` with
amount 5, the second call returns the fixed marker string
`"Payment already processed."` while the stored Outcome for `k1` is the
success string — the duplicate response is not byte-identical to the stored
Outcome, contrary to the claim and to the function's own docstring
("immediately return the stored success response"). -/
theorem duplicate_return_not_stored_outcome :
    (process_payment (process_payment ⟨[]⟩ "k1" 5 sampleHalf).2 "k1" 5
        sampleHalf).1 = ProcessResult.ok duplicateMessage ∧
    dictLookup (process_payment (process_payment ⟨[]⟩ "k1" 5 sampleHalf).2 "k1"
        5 sampleHalf).2.processed_keys "k1" = some (successMessage 5 "k1") ∧
    duplicateMessage ≠ successMessage 5 "k1" := by
  decide

/-- Claim C2: whenever `process_payment` raises the post-commit
`ConnectionError` (the injected acknowledgment failure), the Outcome for that
key is already stored: the store observed immediately after the failing call
contains the success string for the key, because the dict assignment happens
strictly before the failure injection. -/
theorem commit_precedes_signal (p : PaymentProcessor) (k : String) (a r : ℚ)
    (h : (process_payment p k a r).1
        = ProcessResult.connectionError connectionErrorMessage) :
    dictLookup (process_payment p k a r).2.processed_keys k
      = some (successMessage a k) := by
  by_cases hk : (dictLookup p.processed_keys k).isSome
  · rw [process_payment_of_present p k a r hk] at h
    exact absurd h (by simp)
  · rw [Option.not_isSome_iff_eq_none] at hk
    rw [process_payment_of_fresh p k a r hk]
    simp [dictLookup_dictSet_self]

/-- Witness for C2 at the concrete input: key `k1`, amount 1000, sample 0
(which fires the injected failure, as 0 < 0.2). -/
theorem commit_precedes_signal_witness :
    (process_payment ⟨[]⟩ "k1" 1000 0).1
        = ProcessResult.connectionError connectionErrorMessage ∧
    dictLookup (process_payment ⟨[]⟩ "k1" 1000 0).2.processed_keys "k1"
      = some (successMessage 1000 "k1") :=
  ⟨by decide, commit_precedes_signal ⟨[]⟩ "k1" 1000 0 (by decide)⟩

/-- Claim C3 (code_bug evidence): the first call on key `k3` with amount 7 and
sample 0 raises the post-commit `ConnectionError`; the retry with the same key
and amount returns the fixed marker string, which is not the stored Outcome
and carries no amount — contrary to the claim that the retry's Duplicate
carries the originally committed amount. -/
theorem retry_after_failure_lacks_original_outcome :
    (process_payment ⟨[]⟩ "k3" 7 0).1
        = ProcessResult.connectionError connectionErrorMessage ∧
    (process_payment (process_payment ⟨[]⟩ "k3" 7 0).2 "k3" 7 sampleHalf).1
        = ProcessResult.ok duplicateMessage ∧
    dictLookup (process_payment (process_payment ⟨[]⟩ "k3" 7 0).2 "k3" 7
        sampleHalf).2.processed_keys "k3" = some (successMessage 7 "k3") ∧
    duplicateMessage ≠ successMessage 7 "k3" := by
  decide

/-- Claim C4 (counterexample): `process_payment` with the negative amount -5
on a fresh key does not fail with any InvalidAmount classification — no
validation exists in the code — and the key does not remain Unseen: the call
commits and stores an Outcome for the key exactly as for a valid amount. -/
theorem negative_amount_is_committed :
    (process_payment ⟨[]⟩ "k4" (-5) sampleHalf).1
        = ProcessResult.ok (successMessage (-5) "k4") ∧
    dictLookup (process_payment ⟨[]⟩ "k4" (-5)
        sampleHalf).2.processed_keys "k4" = some (successMessage (-5) "k4") := by
  decide

/-- Claim C4 as amended: the code performs no amount validation — for every
fresh key and every negative amount, `process_payment` commits and stores the
Outcome for the key exactly as it does for non-negative amounts, and the key
is present in the store after the call. -/
theorem no_amount_validation (p : PaymentProcessor) (k : String) (a r : ℚ)
    (hk : dictLookup p.processed_keys k = none) (ha : a < 0) :
    dictLookup (process_payment p k a r).2.processed_keys k
        = some (successMessage a k) ∧
    (process_payment p k a r).1 =
      (if r < failureThreshold then
         ProcessResult.connectionError connectionErrorMessage
       else ProcessResult.ok (successMessage a k)) := by
  rw [process_payment_of_fresh p k a r hk]
  simp [dictLookup_dictSet_self]

/-- Witness for the amended C4 at the concrete input: fresh key `k4`,
amount -5, non-firing sample 0.5. -/
theorem no_amount_validation_witness :
    (dictLookup (PaymentProcessor.mk []).processed_keys "k4" = none ∧
      (-5 : ℚ) < 0) ∧
    (dictLookup (process_payment ⟨[]⟩ "k4" (-5)
          sampleHalf).2.processed_keys "k4" = some (successMessage (-5) "k4") ∧
      (process_payment ⟨[]⟩ "k4" (-5) sampleHalf).1 =
        (if sampleHalf < failureThreshold then
           ProcessResult.connectionError connectionErrorMessage
         else ProcessResult.ok (successMessage (-5) "k4"))) :=
  ⟨⟨by decide, by decide⟩,
    no_amount_validation ⟨[]⟩ "k4" (-5) sampleHalf (by decide) (by decide)⟩

/-- Claim C5: for a key that currently has a stored entry, `process_payment`
returns the duplicate marker regardless of the amount passed, and the entire
call result is independent of both the amount and the random sample — the
code never re-validates or compares amounts across calls. -/
theorem duplicate_regardless_of_amount (p : PaymentProcessor) (k : String)
    (a a' r r' : ℚ) (h : (dictLookup p.processed_keys k).isSome) :
    (process_payment p k a r).1 = ProcessResult.ok duplicateMessage ∧
    process_payment p k a r = process_payment p k a' r' := by
  rw [process_payment_of_present p k a r h,
    process_payment_of_present p k a' r' h]
  exact ⟨rfl, rfl⟩

/-- Witness for C5 at the concrete input: key `k5` committed with amount 3,
then queried with the unrelated amounts 42 and 99 and different samples. -/
theorem duplicate_regardless_of_amount_witness :
    (dictLookup (process_payment ⟨[]⟩ "k5" 3
        sampleHalf).2.processed_keys "k5").isSome ∧
    ((process_payment (process_payment ⟨[]⟩ "k5" 3 sampleHalf).2 "k5" 42 0).1
        = ProcessResult.ok duplicateMessage ∧
      process_payment (process_payment ⟨[]⟩ "k5" 3 sampleHalf).2 "k5" 42 0
        = process_payment (process_payment ⟨[]⟩ "k5" 3 sampleHalf).2 "k5" 99
            sampleHalf) :=
  ⟨by decide,
    duplicate_regardless_of_amount (process_payment ⟨[]⟩ "k5" 3 sampleHalf).2
      "k5" 42 99 0 sampleHalf (by decide)⟩

/-- Claim C6: on a fresh key, exactly one random sample `r` (modelled as an
explicit input) decides the outcome after the commit: the call raises the
acknowledgment failure iff `r < failureThreshold` (the fixed default 0.2 of
the source), otherwise it returns the committed success string; in both
cases the Outcome is stored for the key. -/
theorem acknowledgment_failure_injection (p : PaymentProcessor) (k : String)
    (a r : ℚ) (h : dictLookup p.processed_keys k = none) :
    ((process_payment p k a r).1
        = ProcessResult.connectionError connectionErrorMessage
      ↔ r < failureThreshold) ∧
    ((process_payment p k a r).1 = ProcessResult.ok (successMessage a k)
      ↔ ¬ r < failureThreshold) ∧
    dictLookup (process_payment p k a r).2.processed_keys k
      = some (successMessage a k) := by
  rw [process_payment_of_fresh p k a r h]
  by_cases hr : r < failureThreshold <;>
    simp [hr, dictLookup_dictSet_self]

/-- Witness for C6 at the concrete input: fresh key `k6`, amount 10,
sample 0 (which is below the 0.2 threshold). -/
theorem acknowledgment_failure_injection_witness :
    dictLookup (PaymentProcessor.mk []).processed_keys "k6" = none ∧
    (((process_payment ⟨[]⟩ "k6" 10 0).1
        = ProcessResult.connectionError connectionErrorMessage
      ↔ (0 : ℚ) < failureThreshold) ∧
    ((process_payment ⟨[]⟩ "k6" 10 0).1
        = ProcessResult.ok (successMessage 10 "k6")
      ↔ ¬ (0 : ℚ) < failureThreshold) ∧
    dictLookup (process_payment ⟨[]⟩ "k6" 10 0).2.processed_keys "k6"
      = some (successMessage 10 "k6")) :=
  ⟨by decide, acknowledgment_failure_injection ⟨[]⟩ "k6" 10 0 (by decide)⟩

/-- Claim C7: the duplicate fast path is side-effect free — for a key already
present in the store, `process_payment` returns the duplicate marker and the
processor state after the call is exactly the state before it, so every
key's entry (including the queried key's) is unchanged. -/
theorem duplicate_fast_path_no_side_effect (p : PaymentProcessor) (k : String)
    (a r : ℚ) (h : (dictLookup p.processed_keys k).isSome) :
    process_payment p k a r = (ProcessResult.ok duplicateMessage, p) :=
  process_payment_of_present p k a r h

/-- Witness for C7 at the concrete input: key `k7` committed with amount 2,
then re-processed with amount 8. -/
theorem duplicate_fast_path_no_side_effect_witness :
    (dictLookup (process_payment ⟨[]⟩ "k7" 2
        sampleHalf).2.processed_keys "k7").isSome ∧
    process_payment (process_payment ⟨[]⟩ "k7" 2 sampleHalf).2 "k7" 8
        sampleHalf
      = (ProcessResult.ok duplicateMessage,
          (process_payment ⟨[]⟩ "k7" 2 sampleHalf).2) :=
  ⟨by decide,
    duplicate_fast_path_no_side_effect
      (process_payment ⟨[]⟩ "k7" 2 sampleHalf).2 "k7" 8 sampleHalf
      (by decide)⟩

/-- Claim C9: on a fresh key, when the failure draw does not fire,
`process_payment` returns exactly the string it stored for the key — the
success f-string built from the amount and the key — so the returned
confirmation and the stored value are equal. -/
theorem committed_return_equals_stored (p : PaymentProcessor) (k : String)
    (a r : ℚ) (h : dictLookup p.processed_keys k = none)
    (hr : ¬ r < failureThreshold) :
    (process_payment p k a r).1 = ProcessResult.ok (successMessage a k) ∧
    dictLookup (process_payment p k a r).2.processed_keys k
        = some (successMessage a k) := by
  rw [process_payment_of_fresh p k a r h]
  simp [hr, dictLookup_dictSet_self]

/-- Witness for C9 at the concrete input: fresh key `k9`, amount 5,
non-firing sample 0.5. -/
theorem committed_return_equals_stored_witness :
    (dictLookup (PaymentProcessor.mk []).processed_keys "k9" = none ∧
      ¬ sampleHalf < failureThreshold) ∧
    ((process_payment ⟨[]⟩ "k9" 5 sampleHalf).1
        = ProcessResult.ok (successMessage 5 "k9") ∧
      dictLookup (process_payment ⟨[]⟩ "k9" 5 sampleHalf).2.processed_keys "k9"
        = some (successMessage 5 "k9")) :=
  ⟨⟨by decide, by decide⟩,
    committed_return_equals_stored ⟨[]⟩ "k9" 5 sampleHalf (by decide)
      (by decide)⟩

/-- Claim C10: a `process_payment` call on key `k` leaves the entry of every
other key `k'` unchanged (so the key set never shrinks and can grow only by
`k` itself), and a key already present never disappears. -/
theorem process_payment_frame (p : PaymentProcessor) (k : String) (a r : ℚ)
    (k' : String) (h : k' ≠ k) :
    dictLookup (process_payment p k a r).2.processed_keys k'
        = dictLookup p.processed_keys k' ∧
    ((dictLookup p.processed_keys k).isSome →
      (dictLookup (process_payment p k a r).2.processed_keys k).isSome) := by
  by_cases hk : (dictLookup p.processed_keys k).isSome
  · rw [process_payment_of_present p k a r hk]
    exact ⟨rfl, fun _ => hk⟩
  · rw [Option.not_isSome_iff_eq_none] at hk
    rw [process_payment_of_fresh p k a r hk]
    constructor
    · simpa using dictLookup_dictSet_ne p.processed_keys k (successMessage a k)
        k' h
    · intro hs
      simp [dictLookup_dictSet_self]

/-- Witness for C10 at the concrete input: store holding key `a0`, call on
the distinct fresh key `b1`. -/
theorem process_payment_frame_witness :
    ("a0" : String) ≠ "b1" ∧
    (dictLookup (process_payment (process_payment ⟨[]⟩ "a0" 1 sampleHalf).2
          "b1" 2 sampleHalf).2.processed_keys "a0"
        = dictLookup (process_payment ⟨[]⟩ "a0" 1
            sampleHalf).2.processed_keys "a0" ∧
      ((dictLookup (process_payment ⟨[]⟩ "a0" 1
            sampleHalf).2.processed_keys "b1").isSome →
        (dictLookup (process_payment (process_payment ⟨[]⟩ "a0" 1
              sampleHalf).2 "b1" 2 sampleHalf).2.processed_keys "b1").isSome)) :=
  ⟨by decide,
    process_payment_frame (process_payment ⟨[]⟩ "a0" 1 sampleHalf).2 "b1" 2
      sampleHalf "a0" (by decide)⟩
